import Mathlib

/-
Shallow embedding of src/corp/suite/client.go from the wechat repository.

The file models:
  * corp.Error (errcode/errmsg), with the status-code constants of the corp
    package (not shipped under src/, so modelled from the spec);
  * the response target of PostJSON/GetJSON, which per the functions' NOTE is
    either *corp.Error itself ("bare") or a struct whose FIRST field is
    corp.Error ("embedded", with further payload fields);
  * encoding/json decode-into-existing-value semantics: fields present in the
    JSON body overwrite, absent fields keep the previous value of the target;
  * the reflection in client.go that picks the status object: if Field(0) of
    the response value is a struct, that field is the status object, otherwise
    the whole response value is;
  * Client.PostJSON and Client.GetJSON as deterministic functions of an
    environment that supplies the results of clt.Token(), clt.TokenRefresh(),
    the JSON encoding of the request, and the HTTP response of each attempt.
    The functions additionally record the HTTP requests they issue and how
    often TokenRefresh was invoked, so that call counts and request bodies
    are observable in theorems.
-/

namespace Wechat

/-- corp.Error: the two ordered fields errcode (int64) and errmsg (string). -/
structure CorpError where
  errcode : Int
  errmsg : String
deriving Repr, DecidableEq

/-- Modelled from the spec: corp.ErrCodeOK, the success status code 0 of the
corp package (the corp package itself is not under src/). -/
def ErrCodeOK : Int := 0

/-- Modelled from the spec: corp.ErrCodeSuiteAccessTokenExpired, the
platform-defined credential-expired sentinel of the corp package (not under
src/); the spec names the 42001-class codes, matching errCodeTimeout = 42001
in the pay2 source file. -/
def ErrCodeSuiteAccessTokenExpired : Int := 42001

/-- Response target of PostJSON/GetJSON. Per the NOTE on both functions the
caller passes either *corp.Error itself (bare: Field(0) is the int errcode) or
a pointer to a struct whose first field is corp.Error (embedded: Field(0) is a
struct), with the remaining payload fields modelled as a string-keyed list. -/
inductive RespTarget where
  | bare (e : CorpError)
  | embedded (e : CorpError) (data : List (String × Int))
deriving Repr, DecidableEq

/-- Reflection step responseStructValue.Field(0); v.Kind() == reflect.Struct:
true exactly when the first field of the target is itself a struct. -/
def field0IsStruct : RespTarget → Bool
  | .bare _ => false
  | .embedded _ _ => true

/-- Reflection step of client.go: ErrorStructValue is Field(0) of the response
value when that field is a struct, and the whole response value otherwise; in
both cases its sub-fields 0 and 1 are read as errcode and errmsg. -/
def errorStructValue : RespTarget → CorpError
  | .bare e => e
  | .embedded e _ => e

/-- reflect.New(responseStructValue.Type()).Elem(): the zero value of the
target's own type (every field cleared, shape preserved). -/
def zeroOf : RespTarget → RespTarget
  | .bare _ => .bare ⟨0, ""⟩
  | .embedded _ _ => .embedded ⟨0, ""⟩ []

/-- A JSON response body: either malformed (json.Decoder.Decode errors) or an
object carrying optional errcode/errmsg members and an optional payload
member. -/
inductive JsonDoc where
  | malformed (msg : String)
  | obj (errcode : Option Int) (errmsg : Option String)
      (data : Option (List (String × Int)))
deriving Repr, DecidableEq

/-- encoding/json decode into an existing value: members present in the body
overwrite the corresponding field, absent members leave the field's previous
value untouched; a malformed body yields the decoder's error. -/
def decodeInto (r : RespTarget) : JsonDoc → Except String RespTarget
  | .malformed m => .error m
  | .obj c? m? d? =>
    match r with
    | .bare e => .ok (.bare ⟨c?.getD e.errcode, m?.getD e.errmsg⟩)
    | .embedded e d =>
        .ok (.embedded ⟨c?.getD e.errcode, m?.getD e.errmsg⟩ (d?.getD d))

/-- Outcome of one HttpClient.Post/Get: a transport failure, or an HTTP
response with its numeric StatusCode, its Status line and its body. -/
inductive HttpResult where
  | fail (msg : String)
  | resp (statusCode : Nat) (status : String) (body : JsonDoc)
deriving Repr, DecidableEq

/-- One HTTP request as issued by the client: method, final URL, and (for
POST) the Content-Type header and the request body bytes. -/
structure HttpCall where
  method : String
  url : String
  contentType : Option String
  body : Option String
deriving Repr, DecidableEq

/-- The Go errors PostJSON/GetJSON can return, by originating statement. -/
inductive WError where
  | encodeErr (msg : String)
  | tokenErr (msg : String)
  | netErr (msg : String)
  | httpStatusErr (status : String)
  | decodeErr (msg : String)
deriving Repr, DecidableEq

/-- Environment of one logical call: result of json-encoding the request, of
clt.Token(), of clt.TokenRefresh(), and the HTTP outcome of each attempt
(indexed by the number of HTTP calls already issued in this logical call). -/
structure Env where
  encodeRequest : Except String String
  token : Except String String
  tokenRefresh : Except String String
  http : Nat → HttpResult

/-- Observable outcome of PostJSON/GetJSON: the returned err, the final state
of the caller's response target, the HTTP requests issued in order, and the
number of TokenRefresh invocations. -/
structure ExecResult where
  err : Option WError
  response : RespTarget
  calls : List HttpCall
  refreshCount : Nat
deriving Repr, DecidableEq

/-- Hexadecimal digit character, uppercase, as used by net/url. -/
def hexDigitChar (n : Nat) : Char :=
  if n < 10 then Char.ofNat (48 + n) else Char.ofNat (55 + n)

/-- Character classes net/url leaves unescaped in a query component. -/
def queryUnescaped (c : Char) : Bool :=
  c.isAlphanum || c = '-' || c = '_' || c = '.' || c = '~'

/-- url.QueryEscape of the Go standard library, modelled over ASCII strings:
unreserved characters pass through, space becomes '+', everything else becomes
a percent-escaped byte. -/
def urlQueryEscape (s : String) : String :=
  String.mk ((s.data.map fun c =>
    if queryUnescaped c then [c]
    else if c = ' ' then ['+']
    else ['%', hexDigitChar (c.toNat / 16 % 16), hexDigitChar (c.toNat % 16)]).flatten)

/-- The Content-Type header PostJSON passes to HttpClient.Post. -/
def jsonContentType : String := "application/json; charset=utf-8"

/-- Body of Client.PostJSON from the RETRY label on: build the final URL,
issue the POST, check the HTTP status, decode, inspect the status object, and
on the expiry sentinel consume the single retry. retriesLeft is 1 - hasRetried
of the source (1 while hasRetried is false, 0 after); calls and refreshes
accumulate the requests issued and the TokenRefresh invocations so far. -/
def postLoop (env : Env) (incompleteURL requestBytes : String) :
    Nat → String → RespTarget → List HttpCall → Nat → ExecResult
  | retriesLeft, token, response, calls, refreshes =>
    let finalURL := incompleteURL ++ urlQueryEscape token
    let call : HttpCall :=
      { method := "POST", url := finalURL,
        contentType := some jsonContentType, body := some requestBytes }
    match env.http calls.length with
    | .fail m =>
        { err := some (.netErr m), response := response,
          calls := calls ++ [call], refreshCount := refreshes }
    | .resp statusCode status body =>
      if statusCode ≠ 200 then
        { err := some (.httpStatusErr status), response := response,
          calls := calls ++ [call], refreshCount := refreshes }
      else
        match decodeInto response body with
        | .error m =>
            { err := some (.decodeErr m), response := response,
              calls := calls ++ [call], refreshCount := refreshes }
        | .ok response1 =>
          let errCode := (errorStructValue response1).errcode
          if errCode = ErrCodeOK then
            { err := none, response := response1,
              calls := calls ++ [call], refreshCount := refreshes }
          else if errCode = ErrCodeSuiteAccessTokenExpired then
            match retriesLeft with
            | 0 =>
                -- hasRetried already: fallthrough to default, err is nil
                { err := none, response := response1,
                  calls := calls ++ [call], refreshCount := refreshes }
            | n + 1 =>
              match env.tokenRefresh with
              | .error m =>
                  { err := some (.tokenErr m), response := response1,
                    calls := calls ++ [call], refreshCount := refreshes + 1 }
              | .ok token1 =>
                  postLoop env incompleteURL requestBytes n token1
                    (zeroOf response1) (calls ++ [call]) (refreshes + 1)
          else
            -- default: return, err is nil
            { err := none, response := response1,
              calls := calls ++ [call], refreshCount := refreshes }

/-- Client.PostJSON of src/corp/suite/client.go: encode the request once into
a buffer, fetch the token, then run the retry loop with hasRetried = false. -/
def postJSON (env : Env) (incompleteURL : String) (response : RespTarget) :
    ExecResult :=
  match env.encodeRequest with
  | .error m => { err := some (.encodeErr m), response := response,
                  calls := [], refreshCount := 0 }
  | .ok requestBytes =>
    match env.token with
    | .error m => { err := some (.tokenErr m), response := response,
                    calls := [], refreshCount := 0 }
    | .ok token => postLoop env incompleteURL requestBytes 1 token response [] 0

/-- Body of Client.GetJSON from the RETRY label on: identical to postLoop but
issuing a GET with no body and no Content-Type. -/
def getLoop (env : Env) (incompleteURL : String) :
    Nat → String → RespTarget → List HttpCall → Nat → ExecResult
  | retriesLeft, token, response, calls, refreshes =>
    let finalURL := incompleteURL ++ urlQueryEscape token
    let call : HttpCall :=
      { method := "GET", url := finalURL, contentType := none, body := none }
    match env.http calls.length with
    | .fail m =>
        { err := some (.netErr m), response := response,
          calls := calls ++ [call], refreshCount := refreshes }
    | .resp statusCode status body =>
      if statusCode ≠ 200 then
        { err := some (.httpStatusErr status), response := response,
          calls := calls ++ [call], refreshCount := refreshes }
      else
        match decodeInto response body with
        | .error m =>
            { err := some (.decodeErr m), response := response,
              calls := calls ++ [call], refreshCount := refreshes }
        | .ok response1 =>
          let errCode := (errorStructValue response1).errcode
          if errCode = ErrCodeOK then
            { err := none, response := response1,
              calls := calls ++ [call], refreshCount := refreshes }
          else if errCode = ErrCodeSuiteAccessTokenExpired then
            match retriesLeft with
            | 0 =>
                { err := none, response := response1,
                  calls := calls ++ [call], refreshCount := refreshes }
            | n + 1 =>
              match env.tokenRefresh with
              | .error m =>
                  { err := some (.tokenErr m), response := response1,
                    calls := calls ++ [call], refreshCount := refreshes + 1 }
              | .ok token1 =>
                  getLoop env incompleteURL n token1
                    (zeroOf response1) (calls ++ [call]) (refreshes + 1)
          else
            { err := none, response := response1,
              calls := calls ++ [call], refreshCount := refreshes }

/-- Client.GetJSON of src/corp/suite/client.go: fetch the token, then run the
retry loop with hasRetried = false. -/
def getJSON (env : Env) (incompleteURL : String) (response : RespTarget) :
    ExecResult :=
  match env.token with
  | .error m => { err := some (.tokenErr m), response := response,
                  calls := [], refreshCount := 0 }
  | .ok token => getLoop env incompleteURL 1 token response [] 0

/-- A constructed Client: SuiteId, the (non-nil) AccessTokenServer, and the
possibly-nil HttpClient pointer field. -/
structure GoClient (α β : Type) where
  SuiteId : String
  AccessTokenServer : α
  HttpClient : Option β
deriving Repr

/-- NewClient of src/corp/suite/client.go: panics (modelled as none) on an
empty SuiteId or a nil AccessTokenServer; substitutes http.DefaultClient
(the defaultClient argument) when the supplied HttpClient is nil. -/
def NewClient {α β : Type} (SuiteId : String) (ats : Option α)
    (httpClient : Option β) (defaultClient : β) : Option (GoClient α β) :=
  if SuiteId = "" then none
  else
    match ats with
    | none => none
    | some a =>
      let hc := match httpClient with
        | none => some defaultClient
        | some c => some c
      some { SuiteId := SuiteId, AccessTokenServer := a, HttpClient := hc }

/-! Concrete environments used by witnesses and counterexamples. -/

/-- Environment whose single response is a status-0 success with payload. -/
def envOk : Env :=
  { encodeRequest := .ok "reqbody", token := .ok "tok one",
    tokenRefresh := .ok "tok two",
    http := fun _ => .resp 200 "200 OK" (.obj (some 0) (some "ok") (some [("count", 7)])) }

/-- Environment whose responses always carry the application error 40003. -/
def envApiErr : Env :=
  { encodeRequest := .ok "reqbody", token := .ok "tok one",
    tokenRefresh := .ok "tok two",
    http := fun _ => .resp 200 "200 OK" (.obj (some 40003) (some "no permission") none) }

/-- Environment whose responses always carry the expiry sentinel 42001. -/
def envExpired : Env :=
  { encodeRequest := .ok "reqbody", token := .ok "tok one",
    tokenRefresh := .ok "tok two",
    http := fun _ =>
      .resp 200 "200 OK" (.obj (some 42001) (some "expired") (some [("stale", 1)])) }

/-- Environment answering expiry with payload on the first attempt and a
clean success on the second. -/
def envExpireThenOk : Env :=
  { encodeRequest := .ok "reqbody", token := .ok "tok one",
    tokenRefresh := .ok "tok two",
    http := fun n =>
      if n = 0 then .resp 200 "200 OK" (.obj (some 42001) (some "expired") (some [("stale", 1)]))
      else .resp 200 "200 OK" (.obj (some 0) (some "") (some [("fresh", 2)])) }

/-- Environment whose token fetch fails. -/
def envTokenFail : Env :=
  { encodeRequest := .ok "reqbody", token := .error "token service down",
    tokenRefresh := .ok "tok two",
    http := fun _ => .resp 200 "200 OK" (.obj (some 0) (some "") none) }

/-- Environment answering HTTP 500 with a malformed body. -/
def envHttp500 : Env :=
  { encodeRequest := .ok "reqbody", token := .ok "tok one",
    tokenRefresh := .ok "tok two",
    http := fun _ => .resp 500 "500 Internal Server Error" (.malformed "not json") }

/-- C5: a first response that decodes with status code 0 yields no error, the
response target holds exactly the decoded value, and exactly one HTTP call is
issued with no refresh, for PostJSON and for GetJSON alike. -/
theorem success_first_attempt (env : Env) (u b t st : String)
    (r d : RespTarget) (body : JsonDoc)
    (henc : env.encodeRequest = .ok b)
    (htok : env.token = .ok t)
    (hhttp : env.http 0 = .resp 200 st body)
    (hdec : decodeInto r body = .ok d)
    (hcode : (errorStructValue d).errcode = 0) :
    postJSON env u r =
      { err := none, response := d,
        calls := [{ method := "POST", url := u ++ urlQueryEscape t,
                    contentType := some jsonContentType, body := some b }],
        refreshCount := 0 } ∧
    getJSON env u r =
      { err := none, response := d,
        calls := [{ method := "GET", url := u ++ urlQueryEscape t,
                    contentType := none, body := none }],
        refreshCount := 0 } := by
  constructor
  · simp [postJSON, henc, htok, postLoop, hhttp, hdec, hcode, ErrCodeOK]
  · simp [getJSON, htok, getLoop, hhttp, hdec, hcode, ErrCodeOK]

/-- Witness for success_first_attempt at a concrete environment. -/
theorem success_first_attempt_witness :
    postJSON envOk "url?t=" (.embedded ⟨0, ""⟩ []) =
      { err := none, response := .embedded ⟨0, "ok"⟩ [("count", 7)],
        calls := [{ method := "POST", url := "url?t=" ++ urlQueryEscape "tok one",
                    contentType := some jsonContentType, body := some "reqbody" }],
        refreshCount := 0 } ∧
    getJSON envOk "url?t=" (.embedded ⟨0, ""⟩ []) =
      { err := none, response := .embedded ⟨0, "ok"⟩ [("count", 7)],
        calls := [{ method := "GET", url := "url?t=" ++ urlQueryEscape "tok one",
                    contentType := none, body := none }],
        refreshCount := 0 } :=
  success_first_attempt envOk "url?t=" "reqbody" "tok one" "200 OK"
    (.embedded ⟨0, ""⟩ []) (.embedded ⟨0, "ok"⟩ [("count", 7)])
    (.obj (some 0) (some "ok") (some [("count", 7)])) rfl rfl rfl rfl rfl

/-- C1 counterexample: on a response with the non-expiry application code
40003 the executor issues one call and triggers no refresh, but its returned
error is nil (the switch ends in a bare return with err unset); the code and
message are only present in the decoded response target, so no ApiError value
is returned to the caller. -/
theorem api_error_not_returned_counterexample :
    (postJSON envApiErr "url?t=" (.bare ⟨0, ""⟩)).err = none ∧
    (postJSON envApiErr "url?t=" (.bare ⟨0, ""⟩)).calls.length = 1 ∧
    (postJSON envApiErr "url?t=" (.bare ⟨0, ""⟩)).refreshCount = 0 ∧
    errorStructValue (postJSON envApiErr "url?t=" (.bare ⟨0, ""⟩)).response =
      ⟨40003, "no permission"⟩ ∧
    (getJSON envApiErr "url?t=" (.bare ⟨0, ""⟩)).err = none := by
  refine ⟨rfl, rfl, rfl, rfl, rfl⟩

/-- C1 amended: on a decoded response whose status code is non-zero and not
the expiry sentinel, the executor issues exactly 1 HTTP call, triggers no
refresh, and returns with err = nil while the response target's status object
carries the numeric code and message for the caller to inspect. -/
theorem api_error_passthrough (env : Env) (u b t st m : String) (c : Int)
    (d? : Option (List (String × Int))) (r : RespTarget)
    (henc : env.encodeRequest = .ok b)
    (htok : env.token = .ok t)
    (hhttp : env.http 0 = .resp 200 st (.obj (some c) (some m) d?))
    (hc0 : c ≠ 0) (hcExp : c ≠ 42001) :
    ((postJSON env u r).err = none ∧
     (postJSON env u r).calls.length = 1 ∧
     (postJSON env u r).refreshCount = 0 ∧
     errorStructValue (postJSON env u r).response = ⟨c, m⟩) ∧
    ((getJSON env u r).err = none ∧
     (getJSON env u r).calls.length = 1 ∧
     (getJSON env u r).refreshCount = 0 ∧
     errorStructValue (getJSON env u r).response = ⟨c, m⟩) := by
  cases r <;>
    simp [postJSON, getJSON, postLoop, getLoop, henc, htok, hhttp, decodeInto,
      errorStructValue, ErrCodeOK, ErrCodeSuiteAccessTokenExpired, hc0, hcExp]

/-- Witness for api_error_passthrough at a concrete environment. -/
theorem api_error_passthrough_witness :
    ((postJSON envApiErr "url?t=" (.embedded ⟨0, ""⟩ [])).err = none ∧
     (postJSON envApiErr "url?t=" (.embedded ⟨0, ""⟩ [])).calls.length = 1 ∧
     (postJSON envApiErr "url?t=" (.embedded ⟨0, ""⟩ [])).refreshCount = 0 ∧
     errorStructValue (postJSON envApiErr "url?t=" (.embedded ⟨0, ""⟩ [])).response =
       ⟨40003, "no permission"⟩) ∧
    ((getJSON envApiErr "url?t=" (.embedded ⟨0, ""⟩ [])).err = none ∧
     (getJSON envApiErr "url?t=" (.embedded ⟨0, ""⟩ [])).calls.length = 1 ∧
     (getJSON envApiErr "url?t=" (.embedded ⟨0, ""⟩ [])).refreshCount = 0 ∧
     errorStructValue (getJSON envApiErr "url?t=" (.embedded ⟨0, ""⟩ [])).response =
       ⟨40003, "no permission"⟩) :=
  api_error_passthrough envApiErr "url?t=" "reqbody" "tok one" "200 OK"
    "no permission" 40003 none (.embedded ⟨0, ""⟩ [])
    rfl rfl rfl (by decide) (by decide)

/-- C6: when the initial clt.Token() fetch fails, no HTTP call is issued at
all and the provider's error is returned immediately, for PostJSON (whose
body encoding succeeded) and for GetJSON. -/
theorem token_fetch_failure_short_circuit (env : Env) (u b m : String)
    (r : RespTarget)
    (henc : env.encodeRequest = .ok b)
    (htok : env.token = .error m) :
    postJSON env u r =
      { err := some (.tokenErr m), response := r, calls := [], refreshCount := 0 } ∧
    getJSON env u r =
      { err := some (.tokenErr m), response := r, calls := [], refreshCount := 0 } := by
  constructor
  · simp [postJSON, henc, htok]
  · simp [getJSON, htok]

/-- Witness for token_fetch_failure_short_circuit at a concrete environment. -/
theorem token_fetch_failure_short_circuit_witness :
    postJSON envTokenFail "url?t=" (.bare ⟨0, ""⟩) =
      { err := some (.tokenErr "token service down"), response := .bare ⟨0, ""⟩,
        calls := [], refreshCount := 0 } ∧
    getJSON envTokenFail "url?t=" (.bare ⟨0, ""⟩) =
      { err := some (.tokenErr "token service down"), response := .bare ⟨0, ""⟩,
        calls := [], refreshCount := 0 } :=
  token_fetch_failure_short_circuit envTokenFail "url?t=" "reqbody"
    "token service down" (.bare ⟨0, ""⟩) rfl rfl

/-- C2 counterexample: when the server answers the expiry sentinel on both
attempts, the executor does issue exactly 2 HTTP calls and 1 refresh, but the
returned error is nil (the expiry case falls through to the bare default
return with err unset): no ApiError or exhausted-retry error derived from the
second response is returned. -/
theorem expiry_exhausted_err_nil_counterexample :
    (postJSON envExpired "url?t=" (.bare ⟨0, ""⟩)).calls.length = 2 ∧
    (postJSON envExpired "url?t=" (.bare ⟨0, ""⟩)).refreshCount = 1 ∧
    (postJSON envExpired "url?t=" (.bare ⟨0, ""⟩)).err = none ∧
    (getJSON envExpired "url?t=" (.bare ⟨0, ""⟩)).err = none := by
  refine ⟨rfl, rfl, rfl, rfl⟩

/-- C2 amended: when every attempt decodes to the expiry sentinel, the
executor issues exactly 2 HTTP calls, invokes TokenRefresh exactly once,
never enters a third attempt, and returns with err = nil while the response
target holds the status decoded from the second response. -/
theorem single_retry_bound (env : Env) (u b t t1 st1 st2 m1 m2 : String)
    (d1 d2 : Option (List (String × Int))) (r : RespTarget)
    (henc : env.encodeRequest = .ok b)
    (htok : env.token = .ok t)
    (href : env.tokenRefresh = .ok t1)
    (h0 : env.http 0 = .resp 200 st1 (.obj (some 42001) (some m1) d1))
    (h1 : env.http 1 = .resp 200 st2 (.obj (some 42001) (some m2) d2)) :
    ((postJSON env u r).calls.length = 2 ∧
     (postJSON env u r).refreshCount = 1 ∧
     (postJSON env u r).err = none ∧
     errorStructValue (postJSON env u r).response = ⟨42001, m2⟩) ∧
    ((getJSON env u r).calls.length = 2 ∧
     (getJSON env u r).refreshCount = 1 ∧
     (getJSON env u r).err = none ∧
     errorStructValue (getJSON env u r).response = ⟨42001, m2⟩) := by
  cases r <;>
    simp [postJSON, getJSON, postLoop, getLoop, henc, htok, href, h0, h1,
      decodeInto, zeroOf, errorStructValue, ErrCodeOK,
      ErrCodeSuiteAccessTokenExpired]

/-- Witness for single_retry_bound at a concrete environment. -/
theorem single_retry_bound_witness :
    ((postJSON envExpired "url?t=" (.bare ⟨0, ""⟩)).calls.length = 2 ∧
     (postJSON envExpired "url?t=" (.bare ⟨0, ""⟩)).refreshCount = 1 ∧
     (postJSON envExpired "url?t=" (.bare ⟨0, ""⟩)).err = none ∧
     errorStructValue (postJSON envExpired "url?t=" (.bare ⟨0, ""⟩)).response =
       ⟨42001, "expired"⟩) ∧
    ((getJSON envExpired "url?t=" (.bare ⟨0, ""⟩)).calls.length = 2 ∧
     (getJSON envExpired "url?t=" (.bare ⟨0, ""⟩)).refreshCount = 1 ∧
     (getJSON envExpired "url?t=" (.bare ⟨0, ""⟩)).err = none ∧
     errorStructValue (getJSON envExpired "url?t=" (.bare ⟨0, ""⟩)).response =
       ⟨42001, "expired"⟩) :=
  single_retry_bound envExpired "url?t=" "reqbody" "tok one" "tok two"
    "200 OK" "200 OK" "expired" "expired" (some [("stale", 1)])
    (some [("stale", 1)]) (.bare ⟨0, ""⟩) rfl rfl rfl rfl rfl

/-- C3: when the first attempt decodes the expiry sentinel alongside payload
data and the second attempt (after a successful refresh) decodes a clean
success, the final response target holds only the second response's data: the
target is reset to its zero value before the second decode, so neither the
caller's initial payload nor the first response's payload survives (when the
second body carries no payload member the field is the zero value []). -/
theorem reset_on_retry (env : Env) (u b t t1 st1 st2 m1 : String)
    (e0 : CorpError) (d0 d1 : List (String × Int))
    (d2 : Option (List (String × Int)))
    (henc : env.encodeRequest = .ok b)
    (htok : env.token = .ok t)
    (href : env.tokenRefresh = .ok t1)
    (h0 : env.http 0 = .resp 200 st1 (.obj (some 42001) (some m1) (some d1)))
    (h1 : env.http 1 = .resp 200 st2 (.obj (some 0) (some "") d2)) :
    ((postJSON env u (.embedded e0 d0)).err = none ∧
     (postJSON env u (.embedded e0 d0)).response = .embedded ⟨0, ""⟩ (d2.getD []) ∧
     (postJSON env u (.embedded e0 d0)).calls.length = 2) ∧
    ((getJSON env u (.embedded e0 d0)).err = none ∧
     (getJSON env u (.embedded e0 d0)).response = .embedded ⟨0, ""⟩ (d2.getD []) ∧
     (getJSON env u (.embedded e0 d0)).calls.length = 2) := by
  refine ⟨?_, ?_⟩ <;>
    simp [postJSON, getJSON, postLoop, getLoop, henc, htok, href, h0, h1,
      decodeInto, zeroOf, errorStructValue, ErrCodeOK,
      ErrCodeSuiteAccessTokenExpired]

/-- Witness for reset_on_retry at a concrete environment: the first response
carries stale payload, the caller's target starts non-empty, and the final
target holds exactly the second response's payload. -/
theorem reset_on_retry_witness :
    ((postJSON envExpireThenOk "url?t=" (.embedded ⟨7, "old"⟩ [("junk", 9)])).err = none ∧
     (postJSON envExpireThenOk "url?t=" (.embedded ⟨7, "old"⟩ [("junk", 9)])).response =
       .embedded ⟨0, ""⟩ ((some [("fresh", 2)]).getD []) ∧
     (postJSON envExpireThenOk "url?t=" (.embedded ⟨7, "old"⟩ [("junk", 9)])).calls.length = 2) ∧
    ((getJSON envExpireThenOk "url?t=" (.embedded ⟨7, "old"⟩ [("junk", 9)])).err = none ∧
     (getJSON envExpireThenOk "url?t=" (.embedded ⟨7, "old"⟩ [("junk", 9)])).response =
       .embedded ⟨0, ""⟩ ((some [("fresh", 2)]).getD []) ∧
     (getJSON envExpireThenOk "url?t=" (.embedded ⟨7, "old"⟩ [("junk", 9)])).calls.length = 2) :=
  reset_on_retry envExpireThenOk "url?t=" "reqbody" "tok one" "tok two"
    "200 OK" "200 OK" "expired" ⟨7, "old"⟩ [("junk", 9)] [("stale", 1)]
    (some [("fresh", 2)]) rfl rfl rfl rfl rfl

/-- C4: the status object is located by the reflection rule — the first field
of the target when that field is itself a struct, the whole target otherwise —
and the one code path handles both the bare corp.Error shape and the embedded
shape, preserving the payload fields of the embedded shape on success. -/
theorem envelope_location (env : Env) (u b t st m : String)
    (d : List (String × Int)) (e0 : CorpError) (d0 : List (String × Int))
    (henc : env.encodeRequest = .ok b)
    (htok : env.token = .ok t)
    (hhttp : env.http 0 = .resp 200 st (.obj (some 0) (some m) (some d))) :
    (field0IsStruct (.bare e0) = false ∧
     errorStructValue (.bare e0) = e0) ∧
    (field0IsStruct (.embedded e0 d0) = true ∧
     errorStructValue (.embedded e0 d0) = e0) ∧
    ((postJSON env u (.bare e0)).err = none ∧
     (postJSON env u (.bare e0)).response = .bare ⟨0, m⟩ ∧
     (getJSON env u (.bare e0)).err = none ∧
     (getJSON env u (.bare e0)).response = .bare ⟨0, m⟩) ∧
    ((postJSON env u (.embedded e0 d0)).err = none ∧
     (postJSON env u (.embedded e0 d0)).response = .embedded ⟨0, m⟩ d ∧
     (getJSON env u (.embedded e0 d0)).err = none ∧
     (getJSON env u (.embedded e0 d0)).response = .embedded ⟨0, m⟩ d) := by
  refine ⟨⟨rfl, rfl⟩, ⟨rfl, rfl⟩, ?_, ?_⟩ <;>
    simp [postJSON, getJSON, postLoop, getLoop, henc, htok, hhttp,
      decodeInto, errorStructValue, ErrCodeOK]

/-- Witness for envelope_location at a concrete environment. -/
theorem envelope_location_witness :
    (field0IsStruct (.bare ⟨1, "x"⟩) = false ∧
     errorStructValue (.bare ⟨1, "x"⟩) = ⟨1, "x"⟩) ∧
    (field0IsStruct (.embedded ⟨1, "x"⟩ [("a", 3)]) = true ∧
     errorStructValue (.embedded ⟨1, "x"⟩ [("a", 3)]) = ⟨1, "x"⟩) ∧
    ((postJSON envOk "url?t=" (.bare ⟨1, "x"⟩)).err = none ∧
     (postJSON envOk "url?t=" (.bare ⟨1, "x"⟩)).response = .bare ⟨0, "ok"⟩ ∧
     (getJSON envOk "url?t=" (.bare ⟨1, "x"⟩)).err = none ∧
     (getJSON envOk "url?t=" (.bare ⟨1, "x"⟩)).response = .bare ⟨0, "ok"⟩) ∧
    ((postJSON envOk "url?t=" (.embedded ⟨1, "x"⟩ [("a", 3)])).err = none ∧
     (postJSON envOk "url?t=" (.embedded ⟨1, "x"⟩ [("a", 3)])).response =
       .embedded ⟨0, "ok"⟩ [("count", 7)] ∧
     (getJSON envOk "url?t=" (.embedded ⟨1, "x"⟩ [("a", 3)])).err = none ∧
     (getJSON envOk "url?t=" (.embedded ⟨1, "x"⟩ [("a", 3)])).response =
       .embedded ⟨0, "ok"⟩ [("count", 7)]) :=
  envelope_location envOk "url?t=" "reqbody" "tok one" "200 OK" "ok"
    [("count", 7)] ⟨1, "x"⟩ [("a", 3)] rfl rfl rfl

/-- C7: at any attempt (any loop state, hence first attempt and the retry
attempt alike), an HTTP status other than 200 makes the call return an
httpStatusErr carrying the status line, with the response target left exactly
as it was (no JSON decode of that body, which may even be malformed) and no
further attempt: the calls list grows by that one request only. The last two
conjuncts specialize to the entry points PostJSON and GetJSON. -/
theorem http_status_short_circuit (env : Env) (u b st : String) (sc : Nat)
    (body : JsonDoc) (hsc : sc ≠ 200) :
    (∀ (n : Nat) (t : String) (r : RespTarget) (cs : List HttpCall) (ref : Nat),
      env.http cs.length = .resp sc st body →
      postLoop env u b n t r cs ref =
        { err := some (.httpStatusErr st), response := r,
          calls := cs ++ [{ method := "POST", url := u ++ urlQueryEscape t,
                            contentType := some jsonContentType, body := some b }],
          refreshCount := ref } ∧
      getLoop env u n t r cs ref =
        { err := some (.httpStatusErr st), response := r,
          calls := cs ++ [{ method := "GET", url := u ++ urlQueryEscape t,
                            contentType := none, body := none }],
          refreshCount := ref }) ∧
    (∀ (t : String) (r : RespTarget), env.encodeRequest = .ok b →
      env.token = .ok t → env.http 0 = .resp sc st body →
      postJSON env u r =
        { err := some (.httpStatusErr st), response := r,
          calls := [{ method := "POST", url := u ++ urlQueryEscape t,
                      contentType := some jsonContentType, body := some b }],
          refreshCount := 0 } ∧
      getJSON env u r =
        { err := some (.httpStatusErr st), response := r,
          calls := [{ method := "GET", url := u ++ urlQueryEscape t,
                      contentType := none, body := none }],
          refreshCount := 0 }) := by
  constructor
  · intro n t r cs ref h
    exact ⟨by simp [postLoop, h, hsc], by simp [getLoop, h, hsc]⟩
  · intro t r henc htok h
    exact ⟨by simp [postJSON, henc, htok, postLoop, h, hsc],
           by simp [getJSON, htok, getLoop, h, hsc]⟩

/-- Witness for http_status_short_circuit at a concrete environment with an
HTTP 500 response and a malformed body. -/
theorem http_status_short_circuit_witness :
    500 ≠ 200 ∧
    postJSON envHttp500 "url?t=" (.bare ⟨0, ""⟩) =
      { err := some (.httpStatusErr "500 Internal Server Error"),
        response := .bare ⟨0, ""⟩,
        calls := [{ method := "POST", url := "url?t=" ++ urlQueryEscape "tok one",
                    contentType := some jsonContentType, body := some "reqbody" }],
        refreshCount := 0 } ∧
    getJSON envHttp500 "url?t=" (.bare ⟨0, ""⟩) =
      { err := some (.httpStatusErr "500 Internal Server Error"),
        response := .bare ⟨0, ""⟩,
        calls := [{ method := "GET", url := "url?t=" ++ urlQueryEscape "tok one",
                    contentType := none, body := none }],
        refreshCount := 0 } :=
  ⟨by decide,
   (http_status_short_circuit envHttp500 "url?t=" "reqbody"
      "500 Internal Server Error" 500 (.malformed "not json") (by decide)).2
      "tok one" (.bare ⟨0, ""⟩) rfl rfl rfl⟩

/-- Turns a recorded GET request into the POST request with the same URL,
the JSON Content-Type, and the given request body. -/
def toPostCall (b : String) (c : HttpCall) : HttpCall :=
  { method := "POST", url := c.url, contentType := some jsonContentType,
    body := some b }

/-- The retry loops of PostJSON and GetJSON run the same state machine: from
the entry state (retry still available, no calls issued yet) the outcomes
agree in error, final response target and refresh count, and the requests
issued agree up to toPostCall. -/
theorem postLoop_getLoop_agree (env : Env) (u b t : String) (r : RespTarget) :
    postLoop env u b 1 t r [] 0 =
      { err := (getLoop env u 1 t r [] 0).err,
        response := (getLoop env u 1 t r [] 0).response,
        calls := (getLoop env u 1 t r [] 0).calls.map (toPostCall b),
        refreshCount := (getLoop env u 1 t r [] 0).refreshCount } := by
  rcases h : env.http 0 with m | ⟨sc, st, body⟩
  · simp [postLoop, getLoop, h, toPostCall]
  · by_cases hsc : sc = 200
    case neg => simp [postLoop, getLoop, h, hsc, toPostCall]
    case pos =>
      subst hsc
      rcases hd : decodeInto r body with m | r1
      · simp [postLoop, getLoop, h, hd, toPostCall]
      · by_cases hok : (errorStructValue r1).errcode = ErrCodeOK
        · simp [postLoop, getLoop, h, hd, hok, toPostCall]
        · by_cases hex : (errorStructValue r1).errcode = ErrCodeSuiteAccessTokenExpired
          case neg =>
            simp [postLoop, getLoop, h, hd, hok, hex, toPostCall]
          case pos =>
            rcases hr : env.tokenRefresh with m | t1
            · simp [postLoop, getLoop, h, hd, hok, hex, hr, toPostCall,
                ErrCodeOK, ErrCodeSuiteAccessTokenExpired]
            · rcases h2 : env.http 1 with m2 | ⟨sc2, st2, body2⟩
              · simp [postLoop, getLoop, h, hd, hok, hex, hr, h2, toPostCall,
                  ErrCodeOK, ErrCodeSuiteAccessTokenExpired]
              · by_cases hsc2 : sc2 = 200
                case neg =>
                  simp [postLoop, getLoop, h, hd, hok, hex, hr, h2, hsc2,
                    toPostCall, ErrCodeOK, ErrCodeSuiteAccessTokenExpired]
                case pos =>
                  subst hsc2
                  rcases hd2 : decodeInto (zeroOf r1) body2 with m2 | r2
                  · simp [postLoop, getLoop, h, hd, hok, hex, hr, h2, hd2,
                      toPostCall, ErrCodeOK, ErrCodeSuiteAccessTokenExpired]
                  · by_cases hok2 : (errorStructValue r2).errcode = ErrCodeOK
                    · simp [postLoop, getLoop, h, hd, hok, hex, hr, h2, hd2,
                        hok2, toPostCall, ErrCodeOK, ErrCodeSuiteAccessTokenExpired]
                    · by_cases hex2 : (errorStructValue r2).errcode = ErrCodeSuiteAccessTokenExpired
                      · simp [postLoop, getLoop, h, hd, hok, hex, hr, h2, hd2,
                          hok2, hex2, toPostCall, ErrCodeOK, ErrCodeSuiteAccessTokenExpired]
                      · simp [postLoop, getLoop, h, hd, hok, hex, hr, h2, hd2,
                          hok2, hex2, toPostCall, ErrCodeOK, ErrCodeSuiteAccessTokenExpired]

/-- C8: GetJSON realizes the identical state machine as PostJSON minus body
serialization: with the same environment (same URL template, token and
refresh results, and per-attempt HTTP responses) and the same response
target, the two return the same error, the same final response target and the
same refresh count, and issue the same sequence of requests to the same URLs,
the POST requests differing only by carrying the JSON Content-Type and the
encoded request body. -/
theorem get_refines_post (env : Env) (u b : String) (r : RespTarget)
    (henc : env.encodeRequest = .ok b) :
    postJSON env u r =
      { err := (getJSON env u r).err,
        response := (getJSON env u r).response,
        calls := (getJSON env u r).calls.map (toPostCall b),
        refreshCount := (getJSON env u r).refreshCount } := by
  rcases htok : env.token with m | t
  · simp [postJSON, getJSON, henc, htok]
  · have h := postLoop_getLoop_agree env u b t r
    simp [postJSON, getJSON, henc, htok, h]

/-- Witness for get_refines_post at a concrete environment that exercises the
retry path. -/
theorem get_refines_post_witness :
    postJSON envExpireThenOk "url?t=" (.embedded ⟨0, ""⟩ []) =
      { err := (getJSON envExpireThenOk "url?t=" (.embedded ⟨0, ""⟩ [])).err,
        response := (getJSON envExpireThenOk "url?t=" (.embedded ⟨0, ""⟩ [])).response,
        calls := (getJSON envExpireThenOk "url?t=" (.embedded ⟨0, ""⟩ [])).calls.map
          (toPostCall "reqbody"),
        refreshCount := (getJSON envExpireThenOk "url?t=" (.embedded ⟨0, ""⟩ [])).refreshCount } :=
  get_refines_post envExpireThenOk "url?t=" "reqbody" (.embedded ⟨0, ""⟩ []) rfl

/-- C9: NewClient panics (modelled as none) on an empty SuiteId or a nil
AccessTokenServer; for a non-empty SuiteId and non-nil AccessTokenServer it
returns a client, substituting the default client when the supplied
HttpClient is nil, so every constructed client has a non-nil HTTP client. -/
theorem NewClient_spec {α β : Type} (s : String) (a : α) (ats : Option α)
    (hc : Option β) (dflt : β) (hs : s ≠ "") :
    NewClient (α := α) (β := β) "" ats hc dflt = none ∧
    NewClient (α := α) (β := β) s none hc dflt = none ∧
    NewClient s (some a) hc dflt =
      some { SuiteId := s, AccessTokenServer := a,
             HttpClient := some (hc.getD dflt) } ∧
    (∀ (s2 : String) (ats2 : Option α) (c : GoClient α β),
      NewClient s2 ats2 hc dflt = some c → c.HttpClient.isSome = true) := by
  refine ⟨by simp [NewClient], by simp [NewClient], ?_, ?_⟩
  · cases hc <;> simp [NewClient, hs]
  · intro s2 ats2 c hcons
    by_cases h2 : s2 = ""
    · simp [NewClient, h2] at hcons
    · cases ats2 with
      | none => simp [NewClient, h2] at hcons
      | some a2 =>
        cases hc with
        | none =>
          simp [NewClient, h2] at hcons
          cases hcons
          rfl
        | some c0 =>
          simp [NewClient, h2] at hcons
          cases hcons
          rfl

/-- Witness for NewClient_spec at concrete inputs. -/
theorem NewClient_spec_witness :
    NewClient "sid" (some 1) (none : Option Nat) 0 =
      some { SuiteId := "sid", AccessTokenServer := 1,
             HttpClient := some ((none : Option Nat).getD 0) } :=
  (NewClient_spec "sid" 1 (some 1) none 0 (by decide)).2.2.1

/-- C10: the request body of PostJSON is serialized exactly once, before the
token fetch and before the retry loop: a failing encode returns immediately
with no HTTP call regardless of the rest of the environment, and the calls a
logical PostJSON issues are always an initial segment of two POST requests
carrying the one encoded body and the one Content-Type, whose URLs differ
only in the appended escaped credential (first the fetched token, then the
refreshed one). -/
theorem request_body_serialized_once (env : Env) (u b t t1 : String)
    (r : RespTarget)
    (henc : env.encodeRequest = .ok b)
    (htok : env.token = .ok t)
    (href : env.tokenRefresh = .ok t1) :
    (∀ (env2 : Env) (m : String), env2.encodeRequest = .error m →
      postJSON env2 u r =
        { err := some (.encodeErr m), response := r,
          calls := [], refreshCount := 0 }) ∧
    (postJSON env u r).calls =
      List.take (postJSON env u r).calls.length
        [{ method := "POST", url := u ++ urlQueryEscape t,
           contentType := some jsonContentType, body := some b },
         { method := "POST", url := u ++ urlQueryEscape t1,
           contentType := some jsonContentType, body := some b }] := by
  constructor
  · intro env2 m henc2
    simp [postJSON, henc2]
  · simp only [postJSON, henc, htok]
    rcases h : env.http 0 with m | ⟨sc, st, body⟩
    · simp [postLoop, h]
    · by_cases hsc : sc = 200
      case neg => simp [postLoop, h, hsc]
      case pos =>
        subst hsc
        rcases hd : decodeInto r body with m | r1
        · simp [postLoop, h, hd]
        · by_cases hok : (errorStructValue r1).errcode = ErrCodeOK
          · simp [postLoop, h, hd, hok]
          · by_cases hex : (errorStructValue r1).errcode = ErrCodeSuiteAccessTokenExpired
            case neg => simp [postLoop, h, hd, hok, hex]
            case pos =>
              rcases h2 : env.http 1 with m2 | ⟨sc2, st2, body2⟩
              · simp [postLoop, h, hd, hok, hex, href, h2,
                  ErrCodeOK, ErrCodeSuiteAccessTokenExpired]
              · by_cases hsc2 : sc2 = 200
                case neg =>
                  simp [postLoop, h, hd, hok, hex, href, h2, hsc2,
                    ErrCodeOK, ErrCodeSuiteAccessTokenExpired]
                case pos =>
                  subst hsc2
                  rcases hd2 : decodeInto (zeroOf r1) body2 with m2 | r2
                  · simp [postLoop, h, hd, hok, hex, href, h2, hd2,
                      ErrCodeOK, ErrCodeSuiteAccessTokenExpired]
                  · by_cases hok2 : (errorStructValue r2).errcode = ErrCodeOK
                    · simp [postLoop, h, hd, hok, hex, href, h2, hd2, hok2,
                        ErrCodeOK, ErrCodeSuiteAccessTokenExpired]
                    · by_cases hex2 : (errorStructValue r2).errcode = ErrCodeSuiteAccessTokenExpired
                      · simp [postLoop, h, hd, hok, hex, href, h2, hd2, hok2,
                          hex2, ErrCodeOK, ErrCodeSuiteAccessTokenExpired]
                      · simp [postLoop, h, hd, hok, hex, href, h2, hd2, hok2,
                          hex2, ErrCodeOK, ErrCodeSuiteAccessTokenExpired]

/-- Witness for request_body_serialized_once at a concrete environment that
exercises the retry path: both issued requests carry the same body. -/
theorem request_body_serialized_once_witness :
    (postJSON envExpireThenOk "url?t=" (.bare ⟨0, ""⟩)).calls =
      List.take (postJSON envExpireThenOk "url?t=" (.bare ⟨0, ""⟩)).calls.length
        [{ method := "POST", url := "url?t=" ++ urlQueryEscape "tok one",
           contentType := some jsonContentType, body := some "reqbody" },
         { method := "POST", url := "url?t=" ++ urlQueryEscape "tok two",
           contentType := some jsonContentType, body := some "reqbody" }] :=
  (request_body_serialized_once envExpireThenOk "url?t=" "reqbody" "tok one"
    "tok two" (.bare ⟨0, ""⟩) rfl rfl rfl).2

end Wechat
